import Mathlib

/-!
Verification of the Object_remover inpainting service layer
(`src/app/services/inpainting_service.py`) against its specification.

The Python module is embedded shallowly:
* exceptions become values of an inductive type `PyExc`;
* the file system, the FAL provider call and HTTP download become an
  explicit `World` record supplying the outcome of each external effect;
* `remove_object` becomes a pure function from the service state, the
  world and its arguments to the list of performed effects (`Event`s)
  together with either the returned pair or the raised exception;
* Python dicts whose keys matter are embedded as association lists
  `List (String × PyVal)`.
-/

/-- A raised Python exception, as observable by the caller.
`exc msg` is `raise Exception(msg)`, `fileNotFound p` is the error from
`open(p, 'rb')` on a missing file, `indexError` is an out-of-range list
index such as `[][-1]`. -/
inductive PyExc where
  | exc (msg : String)
  | fileNotFound (path : String)
  | indexError
  deriving DecidableEq, Repr

/-- Python truthiness of `self.fal_key : Optional[str]`: `None` and the
empty string are falsy. -/
def truthy : Option String → Bool
  | none => false
  | some s => !s.isEmpty

/-- The Object-List Formatter: the prompt-composition branch of
`remove_multiple_objects` (lines 161-166).  `names[:-1]` is `dropLast`,
`", ".join` is `String.intercalate ", "`, and `names[-1]` on an empty
list raises `IndexError`. -/
def describe (names : List String) : Except PyExc String :=
  if names.length = 1 then
    Except.ok (names.getD 0 "")
  else if names.length = 2 then
    Except.ok (names.getD 0 "" ++ " and " ++ names.getD 1 "")
  else
    match names.getLast? with
    | none => Except.error PyExc.indexError
    | some last => Except.ok (String.intercalate ", " names.dropLast ++ ", and " ++ last)

/-- Modelled from the spec: no mask-dilation code is present under
`src/` (the FAL variant submits no mask at all), so the Mask
Preprocessor is taken from the spec's contract in section 4.1: a
disk-shaped structuring neighbourhood whose bounding box has side
`2*radius+1`, containing the offsets within Euclidean distance `radius`
of the centre. -/
def diskOffsets (r : Nat) : List (Int × Int) :=
  (List.range (2 * r + 1)).flatMap (fun i : Nat =>
    (List.range (2 * r + 1)).filterMap (fun j : Nat =>
      let dy : Int := (i : Int) - (r : Int)
      let dx : Int := (j : Int) - (r : Int)
      if dy ^ 2 + dx ^ 2 ≤ (r : Int) ^ 2 then some (dy, dx) else none))

/-- Pixel lookup in a single-channel mask (a list of rows), with the
spec's edge policy: outside the bounds the image reads as 0. -/
def getPix (m : List (List Nat)) (y x : Int) : Nat :=
  if 0 ≤ y ∧ 0 ≤ x then (m.getD y.toNat []).getD x.toNat 0 else 0

/-- Modelled from the spec: the Mask Preprocessor's `dilate` (spec
section 4.1) — one grayscale-dilation pass: the output pixel at (x,y)
is the maximum input value within the disk-shaped neighbourhood centred
there, with zero padding past the borders. -/
def dilate (m : List (List Nat)) (r : Nat) : List (List Nat) :=
  (List.range m.length).map (fun y : Nat =>
    (List.range (m.getD y []).length).map (fun x : Nat =>
      ((diskOffsets r).map
        (fun p => getPix m ((y : Int) + p.1) ((x : Int) + p.2))).foldl max 0))

/-- A Python value stored in a dict payload (`arguments`, `result_info`). -/
inductive PyVal where
  | pbool (b : Bool)
  | pstr (s : String)
  | pint (n : Int)
  | prat (q : ℚ)
  | pnone
  deriving DecidableEq, Repr

/-- An external effect performed by `remove_object`, in order: a file
opened for reading, the `fal_client.submit` call (the network attempt),
the `requests.get` download, a file opened for writing. -/
inductive Event where
  | fileRead (path : String)
  | submit (endpoint : String) (arguments : List (String × PyVal))
  | httpGet (url : String)
  | fileWrite (path : String) (data : List Nat)
  deriving DecidableEq, Repr

/-- The dict returned by `handler.get()`: the code reads
`result['images'][i]['url']` (each image record reduced to its URL),
`result.get('seed')` and `result.get('timings', \x7b\x7d).get('inference', 0)`. -/
structure FalResult where
  images : Option (List String)
  seed : Option Int
  timingsInference : Option ℚ

/-- The response of `requests.get`. -/
structure HttpResponse where
  status : Nat
  content : List Nat

/-- The outcome of every external effect: the file system's contents,
the combined outcome of `fal_client.submit` + `handler.get()` (a result
dict, a falsy result, or a raised exception), and the HTTP download. -/
structure World where
  files : String → Option (List Nat)
  fal : Except PyExc (Option FalResult)
  http : String → HttpResponse

/-- The state of an `InpaintingService` instance: its only field is
`self.fal_key`. -/
structure InpaintingService where
  falKey : Option String
  deriving DecidableEq, Repr

/-- `InpaintingService.__init__` run with `FAL_KEY = env`: since
`HARDCODED_API_KEY` is `""` (falsy), `self.fal_key` is the environment
value.  The constructor never raises. -/
def mkService (env : Option String) : InpaintingService :=
  { falKey := env }

/-- `InpaintingService.__init__` together with its observable warning:
the second component is `true` exactly when the "WARNING: FAL_KEY not
found!" banner is printed.  Construction always completes. -/
def serviceInit (env : Option String) : InpaintingService × Bool :=
  (mkService env, !truthy env)

/-- The exception raised by `remove_object` when `self.fal_key` is
falsy — the spec taxonomy's `MissingCredential`. -/
def missingCredentialExc : PyExc :=
  PyExc.exc "FAL_KEY not set. Please set your FAL API key."

/-- The standard base64 alphabet. -/
def b64Alphabet : List Char :=
  "ABCDEFGHIJKLMNOPQRSTUVWXYZabcdefghijklmnopqrstuvwxyz0123456789+/".toList

/-- The base64 digit for a 6-bit group. -/
def b64Char (n : Nat) : Char := b64Alphabet.getD n 'A'

/-- `base64.b64encode(data).decode('utf-8')`: 3-byte groups become 4
digits, with `=` padding for a 1- or 2-byte tail. -/
def b64encode : List Nat → String
  | [] => ""
  | [a] => String.mk [b64Char (a / 4 % 64), b64Char (a % 4 * 16)] ++ "=="
  | [a, b] =>
    String.mk [b64Char (a / 4 % 64), b64Char (a % 4 * 16 + b / 16), b64Char (b % 16 * 4)] ++ "="
  | a :: b :: c :: rest =>
    String.mk [b64Char (a / 4 % 64), b64Char (a % 4 * 16 + b / 16),
      b64Char (b % 16 * 4 + c / 64), b64Char (c % 64)] ++ b64encode rest

/-- The inline data URL built for an encoded payload. -/
def dataUrl (b64 : String) : String := "data:image/png;base64," ++ b64

/-- Split a character list at every occurrence of `c` (the separator is
dropped; `n` separators yield `n+1` pieces). -/
def splitOnChar (c : Char) : List Char → List (List Char)
  | [] => [[]]
  | a :: t =>
    let r := splitOnChar c t
    if a = c then [] :: r
    else (a :: r.headD []) :: r.tail

/-- The `/`-separated components of a POSIX path string. -/
def pathComponents (p : String) : List String :=
  (splitOnChar '/' p.toList).map String.mk

/-- `pathlib.Path(p).name`: the final path component. -/
def pathName (p : String) : String := (pathComponents p).getLastD ""

/-- `str(pathlib.Path(p).parent)`: all but the final component, `"."`
for a bare filename, `"/"` below the root. -/
def pathParent (p : String) : String :=
  let comps := (pathComponents p).dropLast
  if comps = [] then "."
  else if comps = [""] then "/"
  else String.intercalate "/" comps

/-- `str(pathlib.Path(parent) / child)`: joining `"."` yields the child
alone and joining `"/"` does not double the slash. -/
def pathJoin (parent child : String) : String :=
  if parent = "." then child
  else if parent = "/" then "/" ++ child
  else parent ++ "/" ++ child

/-- The default output path of `remove_object`:
`image_path_obj.parent / f"result_\x7bimage_path_obj.name\x7d"`. -/
def defaultOutputPath (imagePath : String) : String :=
  pathJoin (pathParent imagePath) ("result_" ++ pathName imagePath)

/-- The `arguments` dict passed to `fal_client.submit` (the `mask_url`
entry is commented out in the source and therefore absent). -/
def submitArguments (prompt imageUrl : String) : List (String × PyVal) :=
  [("prompt", PyVal.pstr prompt),
   ("image_url", PyVal.pstr imageUrl),
   ("num_inference_steps", PyVal.pint 28),
   ("guidance_scale", PyVal.prat (7 / 2)),
   ("output_format", PyVal.pstr "png"),
   ("seed", PyVal.pnone)]

/-- `InpaintingService.remove_object`, as a function of the service
state, the world and the arguments, returning the performed effects and
either the returned `(output_path, result_info)` pair or the raised
exception.  The `except` block only prints and re-raises, so every
exception propagates unchanged. -/
def removeObject (svc : InpaintingService) (w : World)
    (imagePath maskPath objectName : String) (outputPath : Option String) :
    List Event × Except PyExc (String × List (String × PyVal)) :=
  if truthy svc.falKey then
    match w.files imagePath with
    | none => ([Event.fileRead imagePath], Except.error (PyExc.fileNotFound imagePath))
    | some imageData =>
      let imageUrl := dataUrl (b64encode imageData)
      match w.files maskPath with
      | none =>
        ([Event.fileRead imagePath, Event.fileRead maskPath],
         Except.error (PyExc.fileNotFound maskPath))
      | some maskData =>
        let _maskUrl := dataUrl (b64encode maskData)
        let prompt := "remove " ++ objectName ++ " from the image"
        let args := submitArguments prompt imageUrl
        let ev := [Event.fileRead imagePath, Event.fileRead maskPath,
                   Event.submit "fal-ai/flux-pro/kontext" args]
        match w.fal with
        | Except.error e => (ev, Except.error e)
        | Except.ok none => (ev, Except.error (PyExc.exc "No images in result"))
        | Except.ok (some res) =>
          match res.images with
          | none => (ev, Except.error (PyExc.exc "No images in result"))
          | some [] => (ev, Except.error (PyExc.exc "No images in result"))
          | some (resultUrl :: _) =>
            let resp := w.http resultUrl
            if resp.status = 200 then
              let outPath := outputPath.getD (defaultOutputPath imagePath)
              let info : List (String × PyVal) :=
                [("success", PyVal.pbool true),
                 ("prompt", PyVal.pstr prompt),
                 ("object_removed", PyVal.pstr objectName),
                 ("output_path", PyVal.pstr outPath),
                 ("seed", match res.seed with
                   | none => PyVal.pnone
                   | some n => PyVal.pint n),
                 ("inference_time", PyVal.prat (res.timingsInference.getD 0))]
              (ev ++ [Event.httpGet resultUrl, Event.fileWrite outPath resp.content],
               Except.ok (outPath, info))
            else
              (ev ++ [Event.httpGet resultUrl],
               Except.error (PyExc.exc
                 ("Failed to download result image: " ++ toString resp.status)))
  else
    ([], Except.error missingCredentialExc)

/-- `InpaintingService.remove_multiple_objects`: builds the combined
object description (the formatter, whose `IndexError` on an empty list
propagates before any effect) and delegates to `remove_object`. -/
def removeMultipleObjects (svc : InpaintingService) (w : World)
    (imagePath maskPath : String) (objectNames : List String)
    (outputPath : Option String) :
    List Event × Except PyExc (String × List (String × PyVal)) :=
  match describe objectNames with
  | Except.error e => ([], Except.error e)
  | Except.ok objectDesc => removeObject svc w imagePath maskPath objectDesc outputPath

/-- `get_inpainting_service`, with the module-global
`_inpainting_service` passed and returned explicitly: constructs the
service on first use, then returns the stored instance. -/
def getInpaintingService (env : Option String) (g : Option InpaintingService) :
    InpaintingService × Option InpaintingService :=
  match g with
  | none => (mkService env, some (mkService env))
  | some s => (s, some s)

/-- The keys of the `result_info` record of a successful outcome. -/
def resultKeys (r : Except PyExc (String × List (String × PyVal))) : List String :=
  match r with
  | Except.ok (_, info) => info.map Prod.fst
  | Except.error _ => []

/-- A two-file file system used for concrete runs. -/
def sampleFiles : String → Option (List Nat) := fun p =>
  if p = "pics/img.png" then some []
  else if p = "pics/mask.png" then some [] else none

/-- A world in which every stage of the flow succeeds. -/
def sampleWorld : World :=
  { files := sampleFiles
  , fal := Except.ok (some { images := some ["http://results/img0.png"]
                           , seed := none, timingsInference := none })
  , http := fun _ => { status := 200, content := [7, 7] } }

/-- A world in which the provider call raises. -/
def providerFailWorld : World :=
  { files := sampleFiles
  , fal := Except.error (PyExc.exc "boom")
  , http := fun _ => { status := 200, content := [] } }

/-- A service holding a credential. -/
def sampleService : InpaintingService := { falKey := some "key" }

/-- Recognises the network submission event. -/
def isSubmitEv : Event → Bool
  | Event.submit _ _ => true
  | _ => false

/-- Recognises the result-download event. -/
def isHttpGetEv : Event → Bool
  | Event.httpGet _ => true
  | _ => false

/-- The `arguments` dict of the concrete sample run. -/
def sampleArgs : List (String × PyVal) :=
  submitArguments "remove cat from the image" (dataUrl "")

/-- The effect trace of the concrete sample run. -/
def sampleTrace : List Event :=
  [Event.fileRead "pics/img.png", Event.fileRead "pics/mask.png",
   Event.submit "fal-ai/flux-pro/kontext" sampleArgs,
   Event.httpGet "http://results/img0.png",
   Event.fileWrite "pics/result_img.png" [7, 7]]

/-- The `result_info` record of the concrete sample run. -/
def sampleInfo : List (String × PyVal) :=
  [("success", PyVal.pbool true),
   ("prompt", PyVal.pstr "remove cat from the image"),
   ("object_removed", PyVal.pstr "cat"),
   ("output_path", PyVal.pstr "pics/result_img.png"),
   ("seed", PyVal.pnone),
   ("inference_time", PyVal.prat 0)]

/-! ### Theorems -/

/-- Helper: on every non-empty list the formatter succeeds. -/
theorem describe_ok_of_ne_nil (names : List String) (h : names ≠ []) :
    ∃ s, describe names = Except.ok s := by
  unfold describe
  rcases names with _ | ⟨a, _ | ⟨b, _ | ⟨c, t⟩⟩⟩
  · exact absurd rfl h
  · exact ⟨a, rfl⟩
  · exact ⟨a ++ " and " ++ b, rfl⟩
  · have hl : (a :: b :: c :: t).getLast? = some ((a :: b :: c :: t).getLast (by simp)) :=
      List.getLast?_eq_getLast _ _
    rw [if_neg (by simp), if_neg (by simp), hl]
    exact ⟨_, rfl⟩

/-- C2: on a one-element list the formatter returns the name unchanged;
on a two-element list it returns `"{first} and {second}"`; on a list of
three or more names it joins all but the last with `", "` and appends
`", and {last}"`. -/
theorem describe_spec :
    (∀ a : String, describe [a] = Except.ok a) ∧
    (∀ a b : String, describe [a, b] = Except.ok (a ++ " and " ++ b)) ∧
    (∀ names : List String, 3 ≤ names.length →
      describe names =
        Except.ok (String.intercalate ", " names.dropLast ++ ", and " ++ names.getLastD "")) := by
  refine ⟨fun a => rfl, fun a b => rfl, fun names h3 => ?_⟩
  rcases names with _ | ⟨a, _ | ⟨b, _ | ⟨c, t⟩⟩⟩ <;> simp at h3
  have hne : (a :: b :: c :: t) ≠ [] := by simp
  have hl : (a :: b :: c :: t).getLast? = some ((a :: b :: c :: t).getLast hne) :=
    List.getLast?_eq_getLast _ _
  unfold describe
  rw [if_neg (by simp), if_neg (by simp), hl]
  rw [List.getLastD_eq_getLast? , hl]
  rfl

/-- Witness for C2 at concrete inputs. -/
theorem describe_spec_witness :
    describe ["cat"] = Except.ok "cat" ∧
    describe ["cat", "dog"] = Except.ok "cat and dog" ∧
    describe ["cat", "dog", "bird"] = Except.ok "cat, dog, and bird" := by
  refine ⟨describe_spec.1 "cat", ?_, ?_⟩
  · have h := describe_spec.2.1 "cat" "dog"
    simpa using h
  · have h := describe_spec.2.2 ["cat", "dog", "bird"] (by decide)
    simpa using h

/-- C3: the formatter fails on the empty list (the code indexes
`object_names[-1]`, an out-of-range access — the failure the spec's
taxonomy files under `InvalidInput` for an empty name list), and this is
its only failure mode: every non-empty list succeeds.  The embedded
function is pure (no `World`), matching "no I/O". -/
theorem describe_empty_fails_only :
    describe [] = Except.error PyExc.indexError ∧
    ∀ names : List String, names ≠ [] → ∃ s, describe names = Except.ok s :=
  ⟨rfl, describe_ok_of_ne_nil⟩

/-- Witness for C3 at concrete inputs. -/
theorem describe_empty_fails_only_witness :
    describe [] = Except.error PyExc.indexError ∧
    ∃ s, describe ["cat"] = Except.ok s :=
  ⟨describe_empty_fails_only.1,
   describe_empty_fails_only.2 ["cat"] (by simp)⟩

/-- Helper: the seed `b` of a running maximum bounds below the result. -/
theorem self_le_foldl_max (l : List Nat) (b : Nat) : b ≤ l.foldl max b := by
  induction l generalizing b with
  | nil => exact le_refl b
  | cons c t ih => exact le_trans (le_max_left b c) (ih (max b c))

/-- Helper: every member of a list bounds below its running maximum. -/
theorem le_foldl_max (l : List Nat) (b a : Nat) (h : a ∈ l) : a ≤ l.foldl max b := by
  induction l generalizing b with
  | nil => cases h
  | cons c t ih =>
    rcases List.mem_cons.mp h with h | h
    · subst h
      exact le_trans (le_max_right b a) (self_le_foldl_max t (max b a))
    · exact ih (max b c) h

/-- Helper: the centre offset lies in every disk neighbourhood. -/
theorem zero_mem_diskOffsets (r : Nat) : ((0 : Int), (0 : Int)) ∈ diskOffsets r := by
  unfold diskOffsets
  have hr : r ∈ List.range (2 * r + 1) := List.mem_range.mpr (by omega)
  rw [List.mem_flatMap]
  exact ⟨r, hr, List.mem_filterMap.mpr ⟨r, hr, by simp [sub_self, sq_nonneg]⟩⟩

/-- Helper: at non-negative coordinates `getPix` is a plain nested
`getD` lookup. -/
theorem getPix_natCast (m : List (List Nat)) (y x : Nat) :
    getPix m (y : Int) (x : Int) = (m.getD y []).getD x 0 := by
  unfold getPix
  rw [if_pos ⟨Int.natCast_nonneg y, Int.natCast_nonneg x⟩]
  simp

/-- Helper: the dilated value at an in-bounds pixel is the running
maximum over the disk neighbourhood. -/
theorem dilate_getD (m : List (List Nat)) (r : Nat) (y x : Nat)
    (hy : y < m.length) (hx : x < (m.getD y []).length) :
    ((dilate m r).getD y []).getD x 0 =
      ((diskOffsets r).map
        (fun p => getPix m ((y : Int) + p.1) ((x : Int) + p.2))).foldl max 0 := by
  have hrow : (dilate m r).getD y [] =
      (List.range (m.getD y []).length).map (fun x : Nat =>
        ((diskOffsets r).map
          (fun p => getPix m ((y : Int) + p.1) ((x : Int) + p.2))).foldl max 0) := by
    unfold dilate
    rw [List.getD_eq_getElem _ _ (by simpa using hy)]
    rw [List.getElem_map, List.getElem_range]
  rw [hrow, List.getD_eq_getElem _ _ (by simpa using hx)]
  rw [List.getElem_map, List.getElem_range]

/-- C6 (spec-modelled): dilation preserves the mask's dimensions —
same number of rows and same length of every row — and is a superset:
every pixel that is non-zero in the input is still non-zero in the
output.  The radius is a `Nat`, covering every integer radius `r ≥ 0`. -/
theorem dilate_dims_and_superset (m : List (List Nat)) (r : Nat) :
    (dilate m r).length = m.length ∧
    (∀ i : Nat, ((dilate m r).getD i []).length = (m.getD i []).length) ∧
    (∀ y x : Nat, getPix m (y : Int) (x : Int) ≠ 0 →
      getPix (dilate m r) (y : Int) (x : Int) ≠ 0) := by
  refine ⟨by simp [dilate], ?_, ?_⟩
  · intro i
    by_cases hi : i < m.length
    · unfold dilate
      rw [List.getD_eq_getElem _ _ (by simpa using hi)]
      rw [List.getElem_map, List.getElem_range]
      simp
    · have hge : m.length ≤ i := le_of_not_lt hi
      rw [List.getD_eq_default _ _ (by simpa [dilate] using hge),
        List.getD_eq_default _ _ hge]
  · intro y x h
    rw [getPix_natCast] at h
    have hy : y < m.length := by
      by_contra hy
      have hrow : m.getD y [] = [] := List.getD_eq_default _ _ (by omega)
      exact h (by rw [hrow]; simp)
    have hx : x < (m.getD y []).length := by
      by_contra hx
      exact h (List.getD_eq_default _ _ (by omega))
    rw [getPix_natCast]
    rw [dilate_getD m r y x hy hx]
    have hmem : getPix m ((y : Int) + 0) ((x : Int) + 0) ∈
        (diskOffsets r).map
          (fun p => getPix m ((y : Int) + p.1) ((x : Int) + p.2)) :=
      List.mem_map.mpr ⟨((0 : Int), (0 : Int)), zero_mem_diskOffsets r, rfl⟩
    have hle := le_foldl_max _ 0 _ hmem
    have hval : getPix m ((y : Int) + 0) ((x : Int) + 0) =
        (m.getD y []).getD x 0 := by
      rw [add_zero, add_zero, getPix_natCast]
    omega

/-- Witness for C6: a concrete 2×2 mask with one marked pixel, radius 1. -/
theorem dilate_dims_and_superset_witness :
    (dilate [[0, 255], [0, 0]] 1).length = 2 ∧
    getPix (dilate [[0, 255], [0, 0]] 1) ((0 : Nat) : Int) ((1 : Nat) : Int) ≠ 0 := by
  refine ⟨?_, ?_⟩
  · have h := (dilate_dims_and_superset [[0, 255], [0, 0]] 1).1
    simpa using h
  · exact (dilate_dims_and_superset [[0, 255], [0, 0]] 1).2.2 0 1 (by decide)

/-- Helper: inversion of a successful `remove_object` run — success
forces every stage to have succeeded and determines the trace, output
path and result record. -/
theorem removeObject_ok {svc : InpaintingService} {w : World}
    {imagePath maskPath objectName : String} {outputPath : Option String}
    {tr : List Event} {out : String} {info : List (String × PyVal)}
    (h : removeObject svc w imagePath maskPath objectName outputPath =
      (tr, Except.ok (out, info))) :
    ∃ imageData maskData res resultUrl rest,
      truthy svc.falKey = true ∧
      w.files imagePath = some imageData ∧
      w.files maskPath = some maskData ∧
      w.fal = Except.ok (some res) ∧
      res.images = some (resultUrl :: rest) ∧
      (w.http resultUrl).status = 200 ∧
      out = outputPath.getD (defaultOutputPath imagePath) ∧
      info = [("success", PyVal.pbool true),
              ("prompt", PyVal.pstr ("remove " ++ objectName ++ " from the image")),
              ("object_removed", PyVal.pstr objectName),
              ("output_path", PyVal.pstr out),
              ("seed", match res.seed with
                | none => PyVal.pnone
                | some n => PyVal.pint n),
              ("inference_time", PyVal.prat (res.timingsInference.getD 0))] ∧
      tr = [Event.fileRead imagePath, Event.fileRead maskPath,
            Event.submit "fal-ai/flux-pro/kontext"
              (submitArguments ("remove " ++ objectName ++ " from the image")
                (dataUrl (b64encode imageData))),
            Event.httpGet resultUrl,
            Event.fileWrite out (w.http resultUrl).content] := by
  unfold removeObject at h
  split at h
  case isFalse => simp at h
  case isTrue hk =>
    split at h
    next hip => simp at h
    next imageData hip =>
      split at h
      next hmp => simp at h
      next maskData hmp =>
        split at h
        next e hfal => simp at h
        next hfal => simp at h
        next res hfal =>
          split at h
          next himg => simp at h
          next himg => simp at h
          next u rest himg =>
            by_cases hs : (w.http u).status = 200
            · rw [if_pos hs] at h
              simp only [Prod.mk.injEq, Except.ok.injEq] at h
              obtain ⟨htr, hout, hinfo⟩ := h
              refine ⟨imageData, maskData, res, u, rest, hk, hip, hmp, hfal,
                himg, hs, hout.symm, ?_, ?_⟩
              · rw [← hinfo, ← hout]
              · rw [← htr, ← hout]
                rfl
            · rw [if_neg hs] at h
              simp at h

/-- C4: when the credential is absent (unset or empty) the constructor
still completes, returning a service value and only printing the
warning banner (second component `true`), and every removal invocation
returns the MissingCredential error with an empty effect trace: no file
is read, nothing is encoded, and no network attempt is made. -/
theorem no_credential_warns_then_fails (env : Option String) (w : World)
    (imagePath maskPath objectName : String) (outputPath : Option String)
    (h : truthy env = false) :
    serviceInit env = (mkService env, true) ∧
    removeObject (mkService env) w imagePath maskPath objectName outputPath =
      ([], Except.error missingCredentialExc) := by
  constructor
  · simp [serviceInit, h]
  · unfold removeObject
    simp [mkService, h]

/-- Witness for C4 with `FAL_KEY` unset. -/
theorem no_credential_warns_then_fails_witness :
    serviceInit none = (mkService none, true) ∧
    removeObject (mkService none) sampleWorld "pics/img.png" "pics/mask.png" "cat" none =
      ([], Except.error missingCredentialExc) :=
  no_credential_warns_then_fails none sampleWorld "pics/img.png" "pics/mask.png" "cat"
    none rfl

/-- C1 (amended): whenever the flow reaches the provider, the
submission carries the text prompt and the original image as an inline
base64 data URL; the caller-supplied mask is read and encoded but no
mask entry at all is submitted (`mask_url` is commented out in the
source), and no dilation is applied anywhere. -/
theorem submission_payload (svc : InpaintingService) (w : World)
    (imagePath maskPath objectName : String) (outputPath : Option String)
    (imageData maskData : List Nat)
    (hk : truthy svc.falKey = true)
    (hip : w.files imagePath = some imageData)
    (hmp : w.files maskPath = some maskData) :
    Event.submit "fal-ai/flux-pro/kontext"
        (submitArguments ("remove " ++ objectName ++ " from the image")
          (dataUrl (b64encode imageData))) ∈
      (removeObject svc w imagePath maskPath objectName outputPath).1 ∧
    "mask_url" ∉ (submitArguments ("remove " ++ objectName ++ " from the image")
        (dataUrl (b64encode imageData))).map Prod.fst := by
  constructor
  · unfold removeObject
    rw [if_pos hk]
    simp only [hip, hmp]
    rcases w.fal with e | (_ | res)
    · simp
    · simp
    · dsimp only
      rcases res.images with _ | (_ | ⟨u, rest⟩)
      · simp
      · simp
      · dsimp only
        by_cases hs : (w.http u).status = 200 <;> simp [hs, List.mem_append]
  · simp [submitArguments]

/-- Witness for C1 (amended) at the concrete sample run. -/
theorem submission_payload_witness :
    Event.submit "fal-ai/flux-pro/kontext"
        (submitArguments ("remove " ++ "cat" ++ " from the image")
          (dataUrl (b64encode []))) ∈
      (removeObject sampleService sampleWorld "pics/img.png" "pics/mask.png" "cat" none).1 ∧
    "mask_url" ∉ (submitArguments ("remove " ++ "cat" ++ " from the image")
        (dataUrl (b64encode []))).map Prod.fst :=
  submission_payload sampleService sampleWorld "pics/img.png" "pics/mask.png" "cat" none
    [] [] rfl rfl rfl

/-- C1 counterexample: a concrete end-to-end run in which every stage
succeeds.  The full effect trace shows the single submission to the
provider, whose `arguments` keys carry no mask entry whatsoever — the
caller's mask is only read, never submitted, dilated or otherwise
transformed. -/
theorem no_mask_submitted_counterexample :
    (removeObject sampleService sampleWorld "pics/img.png" "pics/mask.png" "cat" none).1 =
      sampleTrace ∧
    (sampleArgs.map Prod.fst =
      ["prompt", "image_url", "num_inference_steps", "guidance_scale",
       "output_format", "seed"]) ∧
    "mask_url" ∉ sampleArgs.map Prod.fst := by
  refine ⟨rfl, rfl, ?_⟩
  decide

/-- C7: on a successful run, when the caller supplies no output path
the returned path is the input image's directory joined with the input
filename prefixed by `result_`; when the caller supplies a path, that
path is returned; and the downloaded bytes are written to the returned
path. -/
theorem output_path_convention (svc : InpaintingService) (w : World)
    (imagePath maskPath objectName : String) (outputPath : Option String)
    (tr : List Event) (out : String) (info : List (String × PyVal))
    (h : removeObject svc w imagePath maskPath objectName outputPath =
      (tr, Except.ok (out, info))) :
    (outputPath = none →
      out = pathJoin (pathParent imagePath) ("result_" ++ pathName imagePath)) ∧
    (∀ p, outputPath = some p → out = p) ∧
    ∃ bytes, Event.fileWrite out bytes ∈ tr := by
  obtain ⟨a, b, res, u, rest, -, -, -, -, -, -, hout, -, htr⟩ := removeObject_ok h
  refine ⟨?_, ?_, ?_⟩
  · intro hnone
    subst hnone
    simpa [defaultOutputPath] using hout
  · intro p hp
    subst hp
    simpa using hout
  · exact ⟨(w.http u).content, by rw [htr]; simp⟩

/-- Witness for C7: the concrete sample run with no caller-supplied
output path lands in `pics/result_img.png`. -/
theorem output_path_convention_witness :
    "pics/result_img.png" =
      pathJoin (pathParent "pics/img.png") ("result_" ++ pathName "pics/img.png") :=
  (output_path_convention sampleService sampleWorld "pics/img.png" "pics/mask.png" "cat"
    none sampleTrace "pics/result_img.png" sampleInfo rfl).1 rfl

/-- C8 (amended): on success the invocation returns the output path
together with the `result_info` record whose keys are exactly success,
prompt, object_removed, output_path, seed and inference_time; the
success, object_removed and output_path fields hold the expected
values, the timing information is exposed under the key
`inference_time`, and no key named `timing` exists. -/
theorem result_record_fields (svc : InpaintingService) (w : World)
    (imagePath maskPath objectName : String) (outputPath : Option String)
    (tr : List Event) (out : String) (info : List (String × PyVal))
    (h : removeObject svc w imagePath maskPath objectName outputPath =
      (tr, Except.ok (out, info))) :
    info.map Prod.fst =
      ["success", "prompt", "object_removed", "output_path", "seed", "inference_time"] ∧
    ("success", PyVal.pbool true) ∈ info ∧
    ("object_removed", PyVal.pstr objectName) ∈ info ∧
    ("output_path", PyVal.pstr out) ∈ info ∧
    (∃ q, ("inference_time", PyVal.prat q) ∈ info) ∧
    "timing" ∉ info.map Prod.fst := by
  obtain ⟨a, b, res, u, rest, -, -, -, -, -, -, -, hinfo, -⟩ := removeObject_ok h
  subst hinfo
  exact ⟨rfl, by simp, by simp, by simp,
    ⟨res.timingsInference.getD 0, by simp⟩, by simp⟩

/-- Witness for C8 (amended) at the concrete sample run. -/
theorem result_record_fields_witness :
    sampleInfo.map Prod.fst =
      ["success", "prompt", "object_removed", "output_path", "seed", "inference_time"] :=
  (result_record_fields sampleService sampleWorld "pics/img.png" "pics/mask.png" "cat"
    none sampleTrace "pics/result_img.png" sampleInfo rfl).1

/-- C8 counterexample: the concrete successful run's result record has
no field named `timing`; the timing value lives under
`inference_time`. -/
theorem result_record_no_timing_key_counterexample :
    resultKeys
        (removeObject sampleService sampleWorld "pics/img.png" "pics/mask.png" "cat" none).2 =
      ["success", "prompt", "object_removed", "output_path", "seed", "inference_time"] ∧
    "timing" ∉ resultKeys
        (removeObject sampleService sampleWorld "pics/img.png" "pics/mask.png" "cat" none).2 := by
  constructor
  · rfl
  · decide

/-- C5 (amended): every failure of a stage of the removal flow is
surfaced to the caller as the single underlying error itself — the
`except` block re-raises the cause unchanged rather than wrapping it in
a distinct provider-error type — with no local retry: no run ever
contains more than one provider submission or more than one download
attempt.  A missing credential fails with MissingCredential before the
flow begins, not as a provider failure. -/
theorem errors_surface_unwrapped_no_retry (svc : InpaintingService) (w : World)
    (imagePath maskPath objectName : String) (outputPath : Option String) :
    ((removeObject svc w imagePath maskPath objectName outputPath).1.countP isSubmitEv ≤ 1 ∧
     (removeObject svc w imagePath maskPath objectName outputPath).1.countP isHttpGetEv ≤ 1) ∧
    (truthy svc.falKey = false →
      removeObject svc w imagePath maskPath objectName outputPath =
        ([], Except.error missingCredentialExc)) ∧
    (truthy svc.falKey = true → w.files imagePath = none →
      (removeObject svc w imagePath maskPath objectName outputPath).2 =
        Except.error (PyExc.fileNotFound imagePath)) ∧
    (∀ imageData, truthy svc.falKey = true → w.files imagePath = some imageData →
      w.files maskPath = none →
      (removeObject svc w imagePath maskPath objectName outputPath).2 =
        Except.error (PyExc.fileNotFound maskPath)) ∧
    (∀ imageData maskData e, truthy svc.falKey = true →
      w.files imagePath = some imageData → w.files maskPath = some maskData →
      w.fal = Except.error e →
      (removeObject svc w imagePath maskPath objectName outputPath).2 =
        Except.error e) ∧
    (∀ imageData maskData res resultUrl rest, truthy svc.falKey = true →
      w.files imagePath = some imageData → w.files maskPath = some maskData →
      w.fal = Except.ok (some res) → res.images = some (resultUrl :: rest) →
      (w.http resultUrl).status ≠ 200 →
      (removeObject svc w imagePath maskPath objectName outputPath).2 =
        Except.error (PyExc.exc
          ("Failed to download result image: " ++ toString (w.http resultUrl).status))) := by
  refine ⟨?_, ?_, ?_, ?_, ?_, ?_⟩
  · unfold removeObject
    by_cases hk : truthy svc.falKey = true
    · rw [if_pos hk]
      rcases w.files imagePath with _ | imageData
      · simp [List.countP_cons, List.countP_nil, isSubmitEv, isHttpGetEv]
      · dsimp only
        rcases w.files maskPath with _ | maskData
        · simp [List.countP_cons, List.countP_nil, isSubmitEv, isHttpGetEv]
        · dsimp only
          rcases w.fal with e | (_ | res)
          · simp [List.countP_cons, List.countP_nil, isSubmitEv, isHttpGetEv]
          · simp [List.countP_cons, List.countP_nil, isSubmitEv, isHttpGetEv]
          · dsimp only
            rcases res.images with _ | (_ | ⟨u, rest⟩)
            · simp [List.countP_cons, List.countP_nil, isSubmitEv, isHttpGetEv]
            · simp [List.countP_cons, List.countP_nil, isSubmitEv, isHttpGetEv]
            · dsimp only
              by_cases hs : (w.http u).status = 200 <;>
                simp [hs, List.countP_append, List.countP_cons, List.countP_nil,
                  isSubmitEv, isHttpGetEv]
    · rw [if_neg hk]
      simp
  · intro hmiss
    unfold removeObject
    rw [if_neg (by rw [hmiss]; exact Bool.false_ne_true)]
  · intro hk hip
    simp [removeObject, hk, hip]
  · intro imageData hk hip hmp
    simp [removeObject, hk, hip, hmp]
  · intro imageData maskData e hk hip hmp hfal
    simp [removeObject, hk, hip, hmp, hfal]
  · intro imageData maskData res resultUrl rest hk hip hmp hfal himg hs
    simp [removeObject, hk, hip, hmp, hfal, himg, hs]

/-- Witness for C5 (amended): the provider exception of a concrete
failing run surfaces to the caller unchanged. -/
theorem errors_surface_unwrapped_no_retry_witness :
    (removeObject sampleService providerFailWorld "pics/img.png" "pics/mask.png" "cat"
        none).2 = Except.error (PyExc.exc "boom") :=
  (errors_surface_unwrapped_no_retry sampleService providerFailWorld "pics/img.png"
    "pics/mask.png" "cat" none).2.2.2.2.1 [] [] (PyExc.exc "boom") rfl rfl rfl rfl

/-- C5 counterexample: with no credential loaded, the concrete run
fails with the MissingCredential exception itself, raised before the
flow starts (empty effect trace) — not with a provider-error wrapper
around an underlying cause. -/
theorem credential_error_not_provider_counterexample :
    removeObject (mkService none) sampleWorld "pics/img.png" "pics/mask.png" "cat" none =
      ([], Except.error missingCredentialExc) ∧
    missingCredentialExc = PyExc.exc "FAL_KEY not set. Please set your FAL API key." :=
  ⟨rfl, rfl⟩

/-- C9: `get_inpainting_service` constructs the orchestrator on first
call (when the module global is unset), stores it, and every later call
returns the stored instance with the global unchanged, whatever the
later environment holds; the instance's entire state is its loaded
credential. -/
theorem singleton_accessor (env env2 : Option String) (g : Option InpaintingService) :
    getInpaintingService env none = (mkService env, some (mkService env)) ∧
    (∀ s, getInpaintingService env (some s) = (s, some s)) ∧
    getInpaintingService env2 (getInpaintingService env g).2 =
      ((getInpaintingService env g).1, (getInpaintingService env g).2) ∧
    (∀ s : InpaintingService, s = mkService s.falKey) := by
  refine ⟨rfl, fun s => rfl, ?_, fun s => rfl⟩
  cases g <;> rfl

/-- C10: for every non-empty name list, `remove_multiple_objects` is
observationally equal to `remove_object` on the same paths with the
formatter's joined description as the object name; on a one-element
list the description is the name itself. -/
theorem remove_multiple_refines_remove (svc : InpaintingService) (w : World)
    (imagePath maskPath : String) (objectNames : List String)
    (outputPath : Option String) (h : objectNames ≠ []) :
    ∃ objectDesc, describe objectNames = Except.ok objectDesc ∧
      removeMultipleObjects svc w imagePath maskPath objectNames outputPath =
        removeObject svc w imagePath maskPath objectDesc outputPath ∧
      (∀ x : String, objectNames = [x] → objectDesc = x) := by
  obtain ⟨d, hd⟩ := describe_ok_of_ne_nil objectNames h
  refine ⟨d, hd, ?_, ?_⟩
  · unfold removeMultipleObjects
    rw [hd]
  · intro x hx
    subst hx
    have h2 : (Except.ok x : Except PyExc String) = Except.ok d := hd
    exact (Except.ok.inj h2).symm

/-- Witness for C10: a singleton list behaves like a plain
`remove_object` call with that name. -/
theorem remove_multiple_refines_remove_witness :
    removeMultipleObjects sampleService sampleWorld "pics/img.png" "pics/mask.png"
        ["cat"] none =
      removeObject sampleService sampleWorld "pics/img.png" "pics/mask.png" "cat" none := by
  obtain ⟨d, hd, he, hs⟩ := remove_multiple_refines_remove sampleService sampleWorld
    "pics/img.png" "pics/mask.png" ["cat"] none (by simp)
  rw [hs "cat" rfl] at he
  exact he
